import Mathlib

/-
Verification of the evaluation script scripts/run_evaluation.py of the
covid19.MIScnn repository.

The script's computational core consists of three per-class metric
functions (calc_DSC, calc_Sensitivity, calc_Specificity) and an RGB
overlay compositor (overlay_segmentation).  We embed them shallowly:

* Label volumes are flattened to lists of voxel labels (List ℕ); the
  spec's data model fixes labels to be small non-negative integers and
  every array operation in the script is elementwise or a global
  reduction, so the spatial arrangement of voxels is irrelevant to the
  computed values.
* Intensity volumes are flattened to List ℚ.  numpy computes in IEEE
  doubles; we idealise the real arithmetic with exact rationals.
* numpy true division of two numeric scalars never raises
  ZeroDivisionError: dividing by zero emits a RuntimeWarning (the
  default errstate is warn, not raise) and produces nan / inf.  We
  model a float that may be nan as Option ℚ with none standing for nan.
  Consequently the `except ZeroDivisionError` branches of the three
  metric functions are unreachable dead code, and the embedding of the
  metric bodies is the division itself, yielding none when the
  denominator is zero (the numerator is zero in each such case, so the
  numpy result there is 0/0 = nan).
-/

namespace RunEvaluation

set_option maxRecDepth 40000

/-- Model of numpy scalar true division `a / b` where the operands are
numpy numeric scalars: the quotient for a non-zero denominator, and none
(standing for the IEEE nan produced by 0/0 under the default numpy
errstate, which warns instead of raising) for a zero denominator.  In
every use below the numerator is zero whenever the denominator is, so
the zero-denominator result in the script is always 0/0 = nan. -/
def npDiv (a b : ℚ) : Option ℚ := if b = 0 then none else some (a / b)

/-- Number of voxels of the label volume v carrying label i:
`np.equal(v, i).sum()` on the flattened volume. -/
def countEq (v : List ℕ) (i : ℕ) : ℕ := v.countP (fun x => x == i)

/-- Number of voxels of the label volume v carrying a label other than
i: `np.logical_not(np.equal(v, i)).sum()` on the flattened volume. -/
def countNotEq (v : List ℕ) (i : ℕ) : ℕ := v.countP (fun x => !(x == i))

/-- Number of voxel positions labeled i in both volumes:
`np.logical_and(np.equal(pred, i), np.equal(truth, i)).sum()` on the
flattened volumes. -/
def countInter (truth pred : List ℕ) (i : ℕ) : ℕ :=
  (truth.zip pred).countP (fun q => q.1 == i && q.2 == i)

/-- Number of voxel positions labeled differently from i in both
volumes: `np.logical_and(not_pd, not_gt).sum()` on the flattened
volumes. -/
def countInterNot (truth pred : List ℕ) (i : ℕ) : ℕ :=
  (truth.zip pred).countP (fun q => !(q.1 == i) && !(q.2 == i))

/-- Embedding of calc_DSC (run_evaluation.py lines 97-110).  For each
class i in range(classes) it computes
`2*np.logical_and(pd, gt).sum() / (pd.sum() + gt.sum())`.
The try/except around the body is dead code (see the header comment),
so a zero denominator yields nan, modelled none. -/
def calc_DSC (truth pred : List ℕ) (classes : ℕ) : List (Option ℚ) :=
  (List.range classes).map (fun i =>
    npDiv (2 * (countInter truth pred i : ℚ))
          ((countEq pred i : ℚ) + (countEq truth i : ℚ)))

/-- Embedding of calc_Sensitivity (run_evaluation.py lines 112-125).
For each class i it computes
`np.logical_and(pd, gt).sum() / gt.sum()`; a zero denominator yields
nan, modelled none, because the except branch is dead code. -/
def calc_Sensitivity (truth pred : List ℕ) (classes : ℕ) : List (Option ℚ) :=
  (List.range classes).map (fun i =>
    npDiv ((countInter truth pred i : ℚ)) ((countEq truth i : ℚ)))

/-- Embedding of calc_Specificity (run_evaluation.py lines 127-140).
For each class i it computes
`np.logical_and(not_pd, not_gt).sum() / (not_gt).sum()`; a zero
denominator yields nan, modelled none, because the except branch is
dead code. -/
def calc_Specificity (truth pred : List ℕ) (classes : ℕ) : List (Option ℚ) :=
  (List.range classes).map (fun i =>
    npDiv ((countInterNot truth pred i : ℚ)) ((countNotEq truth i : ℚ)))

/-- Model of the greyscale conversion of overlay_segmentation
(run_evaluation.py lines 69-71): minimum and maximum of a non-empty
intensity volume; none models the ValueError raised by np.min / np.max
on an empty array. -/
def listMin : List ℚ → Option ℚ
  | [] => none
  | x :: xs => some (xs.foldl min x)

/-- Maximum of a non-empty intensity volume, none on the empty one
(np.max raises there). -/
def listMax : List ℚ → Option ℚ
  | [] => none
  | x :: xs => some (xs.foldl max x)

/-- Model of numpy rounding (np.around / np.round): round half to even. -/
def rnd (q : ℚ) : ℤ :=
  if q - ⌊q⌋ < 1 / 2 then ⌊q⌋
  else if 1 / 2 < q - ⌊q⌋ then ⌊q⌋ + 1
  else if ⌊q⌋ % 2 = 0 then ⌊q⌋ else ⌊q⌋ + 1

/-- Embedding of the greyscale stage of overlay_segmentation
(run_evaluation.py lines 69-71):
`vol_scaled = (vol - np.min(vol)) / (np.max(vol) - np.min(vol))` and
`vol_greyscale = np.around(vol_scaled * 255, decimals=0).astype(np.uint8)`.
When the volume is constant (max = min) every voxel is the float 0/0 =
nan under the default numpy errstate, and casting nan to uint8 is
undefined; the whole stage is modelled as none in that case (and on the
empty volume, where np.min raises).  Otherwise every scaled value lies
in [0, 1], so the rounded value lies in 0..255 and the uint8 cast is
the identity; the per-voxel results are exact integers. -/
def vol_greyscale (vol : List ℚ) : Option (List ℤ) :=
  (listMin vol).bind (fun mn => (listMax vol).bind (fun mx =>
    if mx - mn = 0 then none
    else some (vol.map (fun x => rnd ((x - mn) / (mx - mn) * 255)))))

/-- Embedding of the color table of overlay_segmentation
(run_evaluation.py lines 76-80): seg_rgb is initialised to zeros, then
voxels equal to 1 or 2 are set to [0, 0, 255] and voxels equal to 3 to
[255, 0, 0]; every other label keeps the zero color. -/
def seg_color (s : ℕ) : ℤ × ℤ × ℤ :=
  if s = 1 then (0, 0, 255)
  else if s = 2 then (0, 0, 255)
  else if s = 3 then (255, 0, 0)
  else (0, 0, 0)

/-- Embedding of the blended branch of the np.where on lines 86-90:
`np.round(alpha*seg_rgb + (1-alpha)*vol_rgb).astype(np.uint8)` with
alpha = 0.3, applied per channel to the voxel color c and greyscale
value g.  The blend of channel values in 0..255 lies in [0, 255], so
the uint8 cast is again the identity. -/
def blend (c : ℤ × ℤ × ℤ) (g : ℤ) : ℤ × ℤ × ℤ :=
  (rnd (3 / 10 * (c.1 : ℚ) + 7 / 10 * (g : ℚ)),
   rnd (3 / 10 * (c.2.1 : ℚ) + 7 / 10 * (g : ℚ)),
   rnd (3 / 10 * (c.2.2 : ℚ) + 7 / 10 * (g : ℚ)))

/-- Embedding of overlay_segmentation (run_evaluation.py lines 68-92)
on flattened volumes.  segbin is np.greater(seg, 0); where it holds the
blended branch is selected, elsewhere
`np.round(vol_rgb).astype(np.uint8)`, which is vol_rgb itself since
vol_rgb is an integer (uint8) array.  vol_rgb stacks three copies of
vol_greyscale, so each voxel of the result is a triple of channel
values, modelling the trailing axis of size 3. -/
def overlay_segmentation (vol : List ℚ) (seg : List ℕ) :
    Option (List (ℤ × ℤ × ℤ)) :=
  (vol_greyscale vol).map (fun grey =>
    (grey.zip seg).map (fun gs =>
      if 0 < gs.2 then blend (seg_color gs.2) gs.1 else (gs.1, gs.1, gs.1)))

/-- C1: the claim states that the i-th element of calc_DSC equals
2·|pred_i ∩ truth_i| / (|pred_i| + |truth_i|) and equals 0 when the
denominator is 0.  The formula holds for a non-zero denominator, but
the zero-denominator clause fails on the code: numpy scalar division by
zero yields nan (modelled none) instead of raising ZeroDivisionError,
so the except branch that would append 0.0 is dead code.  At
truth = [0], pred = [0], classes = 2, class 0 has denominator 2 and
Dice 1, while class 1 has denominator 0 and the code produces nan
rather than the 0 the claim asserts. -/
theorem calc_DSC_nan_on_zero_denominator : calc_DSC [0] [0] 2 = [some 1, none] := by
  norm_num [calc_DSC, npDiv, countEq, countInter, List.range_succ]

/-- C2: the claim states that the i-th element of calc_Sensitivity is
|pred_i ∩ truth_i| / |truth_i| and equals 0.0 when truth has no voxel
of class i, the zero denominator being handled as a recoverable
condition.  The fallback clause fails on the code: at truth = [0],
pred = [0], classes = 2, class 1 is absent from truth and the numpy
division 0/0 produces nan (modelled none) instead of the claimed 0.0;
the except ZeroDivisionError branch is dead code. -/
theorem calc_Sensitivity_nan_on_absent_class :
    calc_Sensitivity [0] [0] 2 = [some 1, none] := by
  norm_num [calc_Sensitivity, npDiv, countEq, countInter, List.range_succ]

/-- C3: the claim states that the i-th element of calc_Specificity is
|¬pred_i ∩ ¬truth_i| / |¬truth_i| and equals 0.0 when every voxel of
truth is labeled i, the zero denominator being handled as a recoverable
condition.  The fallback clause fails on the code: at truth = [1],
pred = [1], classes = 2, every voxel of truth is labeled 1, so the
denominator for class 1 is 0 and the numpy division 0/0 produces nan
(modelled none) instead of the claimed 0.0; the except branch is dead
code. -/
theorem calc_Specificity_nan_on_full_class :
    calc_Specificity [1] [1] 2 = [some 1, none] := by
  norm_num [calc_Specificity, npDiv, countNotEq, countInterNot, List.range_succ]

/-- C5: the claim states that for volumes with disjoint label sets
every element of calc_DSC is 0.0.  At truth = [0], pred = [1],
classes = 4 the label sets {0} and {1} are disjoint, and the entries
for classes 0 and 1 are indeed 0, but classes 2 and 3 occur in neither
volume, their denominators are 0, and the numpy division produces nan
(modelled none) instead of the claimed 0.0. -/
theorem calc_DSC_disjoint_nan : calc_DSC [0] [1] 4 = [some 0, some 0, none, none] := by
  norm_num [calc_DSC, npDiv, countEq, countInter, List.range_succ]

/-- C6: the claim states that each metric function returns a list of
length classes all of whose elements lie in [0, 1].  The length always
equals classes, but at truth = [2], pred = [2], classes = 3 the entries
of calc_DSC for the absent classes 0 and 1 are nan (modelled none),
which is not a real number in [0, 1]. -/
theorem calc_DSC_length_but_nan :
    (calc_DSC [2] [2] 3).length = 3 ∧ calc_DSC [2] [2] 3 = [none, none, some 1] := by
  constructor
  · rw [calc_DSC, List.length_map, List.length_range]
  · norm_num [calc_DSC, npDiv, countEq, countInter, List.range_succ]
/-- Element i of a map over List.range n, for i below n. -/
theorem range_map_getElem {α : Type} (f : ℕ → α) (n i : ℕ) (h : i < n) :
    ((List.range n).map f)[i]? = some (f i) := by
  simp [List.getElem?_map, List.getElem?_range, h]

/-- Counting positions of the zip of a list with itself where both
components satisfy p counts the elements of the list satisfying p. -/
theorem zip_self_countP (v : List ℕ) (p : ℕ → Bool) :
    (v.zip v).countP (fun q => p q.1 && p q.2) = v.countP p := by
  induction v with
  | nil => rfl
  | cons x xs ih => simp [List.zip_cons_cons, List.countP_cons, ih, Bool.and_self]

/-- On identical truth and prediction volumes the intersection count
for class i is the count of voxels labeled i. -/
theorem countInter_self (v : List ℕ) (i : ℕ) : countInter v v i = countEq v i :=
  zip_self_countP v (fun x => x == i)

/-- On identical truth and prediction volumes the complemented
intersection count for class i is the count of voxels not labeled i. -/
theorem countInterNot_self (v : List ℕ) (i : ℕ) : countInterNot v v i = countNotEq v i :=
  zip_self_countP v (fun x => !(x == i))

/-- Value of npDiv on equal positive numerator and denominator counts. -/
theorem npDiv_self_pos (c : ℕ) (hc : 0 < c) : npDiv (c : ℚ) (c : ℚ) = some 1 := by
  have h : ((c : ℚ)) ≠ 0 := Nat.cast_ne_zero.mpr hc.ne'
  simp [npDiv, h]

/-- Folding min over a list of copies of c starting from c gives c. -/
theorem foldl_min_const (xs : List ℚ) (c : ℚ) (h : ∀ x ∈ xs, x = c) :
    xs.foldl min c = c := by
  induction xs with
  | nil => rfl
  | cons y ys ih =>
      have hy : y = c := h y (List.mem_cons_self y ys)
      rw [List.foldl_cons, hy, min_self]
      exact ih (fun x hx => h x (List.mem_cons_of_mem y hx))

/-- Folding max over a list of copies of c starting from c gives c. -/
theorem foldl_max_const (xs : List ℚ) (c : ℚ) (h : ∀ x ∈ xs, x = c) :
    xs.foldl max c = c := by
  induction xs with
  | nil => rfl
  | cons y ys ih =>
      have hy : y = c := h y (List.mem_cons_self y ys)
      rw [List.foldl_cons, hy, max_self]
      exact ih (fun x hx => h x (List.mem_cons_of_mem y hx))

/-- Length of the greyscale stage: when it is defined it has one value
per voxel of the intensity volume. -/
theorem vol_greyscale_length (vol : List ℚ) (grey : List ℤ)
    (hg : vol_greyscale vol = some grey) : grey.length = vol.length := by
  rcases hmn : listMin vol with _ | mn
  · rw [vol_greyscale, hmn] at hg
    simp at hg
  rcases hmx : listMax vol with _ | mx
  · rw [vol_greyscale, hmn, hmx] at hg
    simp at hg
  rw [vol_greyscale, hmn, hmx] at hg
  by_cases hz : mx - mn = 0
  · simp only [Option.some_bind, hz, if_true, reduceIte] at hg
    exact absurd hg (Option.noConfusion)
  · simp only [Option.some_bind, hz, if_false, reduceIte, Option.some_inj] at hg
    rw [← hg, List.length_map]

/-- Unfolding of the overlay at one voxel position: the np.where on
lines 86-90 selects the blended branch where the label is positive and
the untouched greyscale elsewhere. -/
theorem overlay_getElem (vol : List ℚ) (seg : List ℕ) (grey : List ℤ)
    (out : List (ℤ × ℤ × ℤ)) (k : ℕ) (g : ℤ) (s : ℕ)
    (hg : vol_greyscale vol = some grey)
    (ho : overlay_segmentation vol seg = some out)
    (hgk : grey[k]? = some g) (hsk : seg[k]? = some s) :
    out[k]? = some (if 0 < s then blend (seg_color s) g else (g, g, g)) := by
  rw [overlay_segmentation, hg, Option.map_some', Option.some_inj] at ho
  have hz : (grey.zip seg)[k]? = some (g, s) := by
    rw [List.getElem?_zip_eq_some]
    exact ⟨hgk, hsk⟩
  rw [← ho, List.getElem?_map, hz, Option.map_some']

/-- C4 counterexample: the claim asserts that for truth = pred = v
every class present in v scores 1.0 in all three metrics.  At v = [1],
classes = 2, class 1 is present (it fills the volume), but the
specificity denominator |¬truth_1| is 0, so calc_Specificity yields nan
(modelled none) at index 1, not 1.0. -/
theorem calc_identity_cex :
    0 < countEq [1] 1 ∧ (calc_Specificity [1] [1] 2)[1]? = some none ∧
    (calc_Specificity [1] [1] 2)[1]? ≠ some (some 1) := by
  refine ⟨by norm_num [countEq], ?_, ?_⟩
  · norm_num [calc_Specificity, npDiv, countNotEq, countInterNot, List.range_succ]
  · norm_num [calc_Specificity, npDiv, countNotEq, countInterNot, List.range_succ]
    exact fun h => Option.noConfusion h

/-- C4 (amended): for truth = pred = v and any class i below classes
that is present in v, calc_DSC and calc_Sensitivity yield 1 at index i,
and calc_Specificity yields 1 at index i provided at least one voxel of
v is not labeled i (when class i fills the volume the specificity
denominator is 0 and the entry is nan instead). -/
theorem calc_identity (v : List ℕ) (classes i : ℕ) (hi : i < classes)
    (hp : 0 < countEq v i) :
    (calc_DSC v v classes)[i]? = some (some 1) ∧
    (calc_Sensitivity v v classes)[i]? = some (some 1) ∧
    (0 < countNotEq v i → (calc_Specificity v v classes)[i]? = some (some 1)) := by
  have hcne : ((countEq v i : ℚ)) ≠ 0 := Nat.cast_ne_zero.mpr hp.ne'
  refine ⟨?_, ?_, fun hq => ?_⟩
  · rw [calc_DSC, range_map_getElem _ _ _ hi, countInter_self]
    have hden : ((countEq v i : ℚ)) + (countEq v i : ℚ) ≠ 0 := by
      intro h
      exact hcne (add_self_eq_zero.mp h)
    rw [npDiv, if_neg hden, Option.some_inj, Option.some_inj,
      div_eq_one_iff_eq hden]
    ring
  · rw [calc_Sensitivity, range_map_getElem _ _ _ hi, countInter_self,
      npDiv_self_pos _ hp]
  · rw [calc_Specificity, range_map_getElem _ _ _ hi, countInterNot_self,
      npDiv_self_pos _ hq]

/-- C4 witness: the amended identity claim at the concrete volume
v = [0, 1] with classes = 2 and class i = 1, which is present and does
not fill the volume. -/
theorem calc_identity_witness :
    (calc_DSC [0, 1] [0, 1] 2)[1]? = some (some 1) ∧
    (calc_Sensitivity [0, 1] [0, 1] 2)[1]? = some (some 1) ∧
    (calc_Specificity [0, 1] [0, 1] 2)[1]? = some (some 1) := by
  have h := calc_identity [0, 1] 2 1 (by norm_num) (by norm_num [countEq])
  exact ⟨h.1, h.2.1, h.2.2 (by norm_num [countNotEq])⟩

/-- Evaluation of the rounding function at 0. -/
theorem rnd_zero : rnd 0 = 0 := by norm_num [rnd]

/-- Evaluation of the rounding function at 255. -/
theorem rnd_255 : rnd 255 = 255 := by norm_num [rnd]

/-- Evaluation of the rounding function at the tie 76.5, which numpy
rounds to the even integer 76. -/
theorem rnd_tie76 : rnd (153 / 2) = 76 := by norm_num [rnd, Int.fract]

/-- Evaluation of the rounding function at the tie 178.5, which numpy
rounds to the even integer 178. -/
theorem rnd_tie178 : rnd (357 / 2) = 178 := by norm_num [rnd, Int.fract]

/-- Evaluation of the greyscale stage on the two-voxel volume [0, 10]:
the minimum maps to 0 and the maximum to 255. -/
theorem vol_greyscale_01 : vol_greyscale [0, 10] = some [0, 255] := by
  norm_num [vol_greyscale, listMin, listMax, rnd_zero, rnd_255]

/-- C7: the color table maps labels 1 and 2 to blue [0, 0, 255] and
label 3 to red [255, 0, 0] while every other label keeps the zero
color, and at every voxel with a non-zero label the output channel
values are round(0.3·color + 0.7·greyscale), with round the numpy
half-to-even rounding and greyscale the volume normalised to [0, 255]
by its global minimum and maximum (the value produced by
vol_greyscale). -/
theorem overlay_colors_and_blend
    (vol : List ℚ) (seg : List ℕ) (grey : List ℤ) (out : List (ℤ × ℤ × ℤ))
    (k : ℕ) (g : ℤ) (s : ℕ)
    (hg : vol_greyscale vol = some grey)
    (ho : overlay_segmentation vol seg = some out)
    (hgk : grey[k]? = some g) (hsk : seg[k]? = some s) (hs : s ≠ 0) :
    seg_color 1 = (0, 0, 255) ∧ seg_color 2 = (0, 0, 255) ∧
    seg_color 3 = (255, 0, 0) ∧
    (∀ t : ℕ, t ≠ 1 → t ≠ 2 → t ≠ 3 → seg_color t = (0, 0, 0)) ∧
    out[k]? =
      some (rnd (3 / 10 * ((seg_color s).1 : ℚ) + 7 / 10 * (g : ℚ)),
            rnd (3 / 10 * ((seg_color s).2.1 : ℚ) + 7 / 10 * (g : ℚ)),
            rnd (3 / 10 * ((seg_color s).2.2 : ℚ) + 7 / 10 * (g : ℚ))) := by
  refine ⟨rfl, rfl, rfl, fun t h1 h2 h3 => ?_, ?_⟩
  · rw [seg_color, if_neg h1, if_neg h2, if_neg h3]
  · rw [overlay_getElem vol seg grey out k g s hg ho hgk hsk,
      if_pos (Nat.pos_of_ne_zero hs), blend]

/-- C7 witness: the blend property at vol = [0, 10], seg = [1, 0],
voxel 0, which is labeled 1 (blue) and has greyscale value 0; its
output channels are round(0.3·[0, 0, 255] + 0.7·0) = (0, 0, 76), where
76.5 rounds half-to-even to 76. -/
theorem overlay_colors_and_blend_witness :
    seg_color 1 = (0, 0, 255) ∧ seg_color 2 = (0, 0, 255) ∧
    seg_color 3 = (255, 0, 0) ∧
    (∀ t : ℕ, t ≠ 1 → t ≠ 2 → t ≠ 3 → seg_color t = (0, 0, 0)) ∧
    (([(0, 0, 76), (255, 255, 255)] : List (ℤ × ℤ × ℤ)))[0]? =
      some (rnd (3 / 10 * ((seg_color 1).1 : ℚ) + 7 / 10 * ((0 : ℤ) : ℚ)),
            rnd (3 / 10 * ((seg_color 1).2.1 : ℚ) + 7 / 10 * ((0 : ℤ) : ℚ)),
            rnd (3 / 10 * ((seg_color 1).2.2 : ℚ) + 7 / 10 * ((0 : ℤ) : ℚ))) :=
  overlay_colors_and_blend [0, 10] [1, 0] [0, 255] [(0, 0, 76), (255, 255, 255)]
    0 0 1 vol_greyscale_01
    (by norm_num [overlay_segmentation, vol_greyscale, listMin, listMax, blend,
      seg_color, rnd_zero, rnd_255, rnd_tie76])
    rfl rfl (by norm_num)

/-- C8: the overlay output has one RGB triple per voxel (the flattened
form of the input spatial shape with a trailing axis of size 3), and at
every voxel labeled 0 all three channels equal the unblended greyscale
value of that voxel. -/
theorem overlay_shape_background
    (vol : List ℚ) (seg : List ℕ) (grey : List ℤ) (out : List (ℤ × ℤ × ℤ))
    (hlen : vol.length = seg.length)
    (hg : vol_greyscale vol = some grey)
    (ho : overlay_segmentation vol seg = some out) :
    out.length = seg.length ∧
    (∀ (k : ℕ) (g : ℤ), grey[k]? = some g → seg[k]? = some 0 →
      out[k]? = some (g, g, g)) := by
  constructor
  · rw [overlay_segmentation, hg, Option.map_some', Option.some_inj] at ho
    rw [← ho, List.length_map, List.length_zip,
      vol_greyscale_length vol grey hg, hlen, min_self]
  · intro k g hgk hsk
    rw [overlay_getElem vol seg grey out k g 0 hg ho hgk hsk, if_neg (lt_irrefl 0)]

/-- C8 witness: the shape and background property at vol = [0, 10],
seg = [1, 0]: the output has two RGB voxels, and voxel 1, labeled 0,
keeps its pure greyscale value 255 in all three channels. -/
theorem overlay_shape_background_witness :
    (([(0, 0, 76), (255, 255, 255)] : List (ℤ × ℤ × ℤ))).length = 2 ∧
    (([(0, 0, 76), (255, 255, 255)] : List (ℤ × ℤ × ℤ)))[1]? =
      some (255, 255, 255) := by
  have h := overlay_shape_background [0, 10] [1, 0] [0, 255]
    [(0, 0, 76), (255, 255, 255)] rfl vol_greyscale_01
    (by norm_num [overlay_segmentation, vol_greyscale, listMin, listMax, blend,
      seg_color, rnd_zero, rnd_255, rnd_tie76])
  exact ⟨h.1, h.2 1 255 rfl rfl⟩

/-- C9: on a constant (and in particular non-empty) intensity volume
the normalisation divides by max - min = 0, every scaled voxel is the
float 0/0 = nan, and no guard or fallback exists; the whole overlay is
undefined, modelled none. -/
theorem overlay_constant_nan (vol : List ℚ) (c : ℚ) (seg : List ℕ)
    (hne : vol ≠ []) (hc : ∀ x ∈ vol, x = c) :
    overlay_segmentation vol seg = none := by
  rcases vol with _ | ⟨x, xs⟩
  · exact absurd rfl hne
  have hx : x = c := hc x (List.mem_cons_self x xs)
  have hxs : ∀ y ∈ xs, y = c := fun y hy => hc y (List.mem_cons_of_mem x hy)
  have hmin : listMin (x :: xs) = some c := by
    rw [listMin, Option.some_inj, hx]
    exact foldl_min_const xs c hxs
  have hmax : listMax (x :: xs) = some c := by
    rw [listMax, Option.some_inj, hx]
    exact foldl_max_const xs c hxs
  rw [overlay_segmentation, vol_greyscale, hmin, hmax]
  simp

/-- C9 witness: the constant two-voxel volume [5, 5] with segmentation
[1, 0] has an undefined overlay. -/
theorem overlay_constant_nan_witness : overlay_segmentation [5, 5] [1, 0] = none :=
  overlay_constant_nan [5, 5] 5 [1, 0] (by simp) (by simp)

/-- C10: a voxel whose label is non-zero but not 1, 2 or 3 keeps the
all-zero color, and its output channels are round(0.7·greyscale): the
voxel is darkened by the blend instead of keeping its pure greyscale
value. -/
theorem overlay_unmapped_label
    (vol : List ℚ) (seg : List ℕ) (grey : List ℤ) (out : List (ℤ × ℤ × ℤ))
    (k : ℕ) (g : ℤ) (s : ℕ)
    (hg : vol_greyscale vol = some grey)
    (ho : overlay_segmentation vol seg = some out)
    (hgk : grey[k]? = some g) (hsk : seg[k]? = some s)
    (hs0 : s ≠ 0) (hs1 : s ≠ 1) (hs2 : s ≠ 2) (hs3 : s ≠ 3) :
    seg_color s = (0, 0, 0) ∧
    out[k]? = some (rnd (7 / 10 * (g : ℚ)), rnd (7 / 10 * (g : ℚ)),
      rnd (7 / 10 * (g : ℚ))) := by
  have hcol : seg_color s = (0, 0, 0) := by
    rw [seg_color, if_neg hs1, if_neg hs2, if_neg hs3]
  refine ⟨hcol, ?_⟩
  rw [overlay_getElem vol seg grey out k g s hg ho hgk hsk,
    if_pos (Nat.pos_of_ne_zero hs0), blend, hcol]
  norm_num

/-- C10 witness: at vol = [0, 10], seg = [4, 4], voxel 1 has the
unmapped label 4 and greyscale value 255; its output channels are
round(0.7·255) = round(178.5) = 178, strictly darker than the pure
greyscale 255. -/
theorem overlay_unmapped_label_witness :
    seg_color 4 = (0, 0, 0) ∧
    (([(0, 0, 0), (178, 178, 178)] : List (ℤ × ℤ × ℤ)))[1]? =
      some (rnd (7 / 10 * ((255 : ℤ) : ℚ)), rnd (7 / 10 * ((255 : ℤ) : ℚ)),
        rnd (7 / 10 * ((255 : ℤ) : ℚ))) :=
  overlay_unmapped_label [0, 10] [4, 4] [0, 255] [(0, 0, 0), (178, 178, 178)]
    1 255 4 vol_greyscale_01
    (by norm_num [overlay_segmentation, vol_greyscale, listMin, listMax, blend,
      seg_color, rnd_zero, rnd_255, rnd_tie178])
    rfl rfl (by norm_num) (by norm_num) (by norm_num) (by norm_num)

end RunEvaluation
